import Mathlib

/-!
Shallow embedding of the aws-lambda-in-go-lang repository: a single-endpoint
CRUD service over a user table keyed by email.

Source files embedded here:
  * the main lambda file (package main): APIResponse, isEmailValid, showUser,
    listUsers, getUser, fetchUser, createUser, updateUser, deleteUser, handler;
  * pkg/user/user.go (package user): FetchUser, FetchUsers, CreateUser,
    UpdateUser, DeleteUser.

Modelling conventions:
  * The DynamoDB table is a list of attribute maps (items), keyed by the
    "email" attribute; GetItem / Scan / PutItem / DeleteItem are modelled as
    pure operations on that list, and each remote call may instead fail, which
    is driven by an explicit `Faults` record (all false = the store behaves).
  * json.Unmarshal of the request body is abstracted as a `RequestBody` that is
    either malformed or a parsed user record; dynamodbattribute.MarshalMap of a
    struct of three strings cannot fail and is modelled as a total function;
    dynamodbattribute.UnmarshalMap cannot fail on items written by this app
    (every attribute is a string) and is modelled as a total function that
    yields the zero-value record on a missing item, as the Go library does.
  * The Go expression len(currentUser.Email) dereferences a nil pointer when
    fetchUser returned an error; that crash is modelled as the explicit
    `HandlerResult.nilPanic` outcome, distinct from every response.
  * Go {go}`len(email)` counts bytes while `String.length` counts characters;
    the two agree on every string the regular expression can accept (all the
    character classes are ASCII), and both sides reject otherwise, so the
    validator below is extensionally the Go one.
-/

/-! ## The user record (struct User, identical in both packages) -/

structure User where
  Email : String
  FirstName : String
  LastName : String
deriving DecidableEq, Repr

/-! ## Email validation (isEmailValid in the main file)

The Go code matches the anchored regular expression
  [a-zA-Z0-9.!#$%&...etc]{1,64} at-sign label(.label)*
together with a byte-length bound of 3 to 254.  The regular expression is
embedded as an equivalent functional matcher: the at-sign occurs in no
character class, so a match splits the string at its unique at-sign into a
local part (1 to 64 characters of the local class) and a domain that is a
dot-separated sequence of DNS labels (1 to 63 characters, alphanumeric ends,
alphanumeric or hyphen inside). -/

/-- Code points of the special characters admitted by the local-part class
of the regular expression, besides ASCII letters and digits:
. ! # $ % & apostrophe * + / = ? caret underscore backtick braces bar tilde hyphen. -/
def localSpecials : List Nat :=
  [33, 35, 36, 37, 38, 39, 42, 43, 45, 46, 47, 61, 63, 94, 95, 96, 123, 124, 125, 126]

/-- Membership in the local-part character class of the regular expression. -/
def isLocalChar (c : Char) : Bool :=
  c.isAlpha || c.isDigit || localSpecials.contains c.toNat

/-- ASCII letter or digit, the class [a-zA-Z0-9] of the regular expression. -/
def isAlnum (c : Char) : Bool :=
  c.isAlpha || c.isDigit

/-- Membership in the class [a-zA-Z0-9-] used inside a DNS label. -/
def isLabelChar (c : Char) : Bool :=
  isAlnum c || c = '-'

/-- One DNS label of the domain: the regular expression piece
[a-zA-Z0-9](?:[a-zA-Z0-9-]{0,61}[a-zA-Z0-9])? — an alphanumeric character,
optionally followed by at most 61 label characters and a final alphanumeric
character; equivalently: nonempty, at most 63 characters, all label
characters, with alphanumeric first and last character. -/
def validLabel : List Char → Bool
  | [] => false
  | c :: cs =>
    isAlnum c && decide (cs.length ≤ 62) && cs.all isLabelChar && isAlnum (cs.getLastD c)

/-- Split a character list at every occurrence of `sep`; mirrors how an
anchored regular expression of the shape piece(sep piece)* decomposes its
input when `sep` occurs in no piece. Always returns a nonempty list. -/
def splitOnChar (sep : Char) : List Char → List (List Char)
  | [] => [[]]
  | c :: cs =>
    if c = sep then [] :: splitOnChar sep cs
    else
      match splitOnChar sep cs with
      | [] => [[c]]
      | h :: t => (c :: h) :: t

/-- The domain side of the regular expression: label(.label)*. -/
def validDomain (d : List Char) : Bool :=
  (splitOnChar '.' d).all validLabel

/-- The full anchored regular expression rxEmail of the Go source. -/
def rxEmailMatch (cs : List Char) : Bool :=
  match splitOnChar '@' cs with
  | [lp, dom] =>
    decide (1 ≤ lp.length) && decide (lp.length ≤ 64) && lp.all isLocalChar && validDomain dom
  | _ => false

/-- isEmailValid of the Go source: length in [3, 254] and the regular
expression matches. -/
def isEmailValid (email : String) : Bool :=
  if decide (email.length < 3) || decide (email.length > 254) || !rxEmailMatch email.toList
  then false
  else true

/-! ## Error strings of the main lambda file -/

def ErrorInvalidUserData : String := "Invalid User Data"
def ErrorMethodNotAllowed : String := "Method Not Allowed"
def ErrorFailedToUnmarshalRecord : String := "Failed to unmarshal record"
def ErrorInvalidEmail : String := "Invalid Email"
def ErrorFailedToFetchRecord : String := "Failed to fetch record"
def ErrorCouldNotMarshalItem : String := "Could not marshal item"
def ErrorCouldNotDeleteItem : String := "Could not delete item"
def ErrorCouldNotDynamoPutItem : String := "Could not Dynamo Put Item Error"
def ErrorUserAlreadyExists : String := "User already exists"
def ErrorUserDoesNotExists : String := "User does not exist"

/-! ## The DynamoDB attribute format and the table

Every attribute this application ever writes is a string attribute, so the
attribute value type carries the single constructor S. An item is an
attribute map; the table keys items by their "email" attribute. -/

inductive AttributeValue where
  | S (s : String)
deriving DecidableEq, Repr

/-- One DynamoDB item: a map from attribute names to attribute values. -/
abbrev Item := List (String × AttributeValue)

/-- dynamodbattribute.MarshalMap on the User struct. -/
def marshalMap (u : User) : Item :=
  [("email", AttributeValue.S u.Email),
   ("firstName", AttributeValue.S u.FirstName),
   ("lastName", AttributeValue.S u.LastName)]

/-- Read a string attribute from an item; a missing attribute decodes to the
zero value "", as dynamodbattribute.UnmarshalMap does for a Go string field. -/
def getAttrS (m : Item) (k : String) : String :=
  match m.find? (fun p => p.1 == k) with
  | some (_, AttributeValue.S s) => s
  | none => ""

/-- dynamodbattribute.UnmarshalMap into the User struct; UnmarshalMap of a
nil map (item not found) is UnmarshalMap of the empty map: the zero value. -/
def unmarshalMap (m : Item) : User :=
  ⟨getAttrS m "email", getAttrS m "firstName", getAttrS m "lastName"⟩

/-- The table partition key of an item: its "email" attribute. -/
def itemKey (it : Item) : String :=
  getAttrS it "email"

/-- dynamodb GetItem on the table: the item whose key matches, if any. -/
def storeGet (s : List Item) (email : String) : Option Item :=
  s.find? (fun it => itemKey it == email)

/-- dynamodb PutItem on the table: upsert by the key attribute. -/
def storePut (s : List Item) (it : Item) : List Item :=
  it :: s.filter (fun old => !(itemKey old == itemKey it))

/-- dynamodb DeleteItem on the table: remove by key; deleting an absent key
succeeds and is a no-op. -/
def storeDelete (s : List Item) (email : String) : List Item :=
  s.filter (fun it => !(itemKey it == email))

/-- dynamodb Scan on the table: every item. -/
def storeScan (s : List Item) : List Item := s

/-- Which of the four remote calls fail during one invocation; all-false is
the store behaving normally. -/
structure Faults where
  getItemFails : Bool
  scanFails : Bool
  putItemFails : Bool
  deleteItemFails : Bool
deriving DecidableEq, Repr

def noFaults : Faults := ⟨false, false, false, false⟩

/-! ## Requests and responses -/

/-- The request body as seen through json.Unmarshal into the User struct:
either the bytes do not decode, or they decode to a record (absent JSON
fields decode to the zero value ""). -/
inductive RequestBody where
  | malformed
  | parsed (u : User)
deriving DecidableEq, Repr

/-- events.APIGatewayProxyRequest, restricted to the fields the program
reads. Reading an absent query parameter yields "" as Go map indexing does. -/
structure APIGatewayProxyRequest where
  HTTPMethod : String
  QueryStringParameters : List (String × String)
  Body : RequestBody
deriving DecidableEq, Repr

/-- Go map indexing m[k] on the query parameters: the value if present,
the zero value "" otherwise. -/
def queryParam (q : List (String × String)) (k : String) : String :=
  match q.find? (fun p => p.1 == k) with
  | some p => p.2
  | none => ""

/-- The Go value handed to APIResponse as the body, before JSON rendering:
nil (renders as empty), an ErrorBody, a fetched record, a ScanOutput with
its raw items, or a DeleteItemOutput. -/
inductive ResponseBody where
  | empty
  | errorBody (msg : String)
  | userBody (u : User)
  | scanBody (items : List Item)
  | deleteBody
deriving DecidableEq, Repr

/-- events.APIGatewayProxyResponse, restricted to the fields the program
writes. -/
structure APIGatewayProxyResponse where
  StatusCode : Nat
  Headers : List (String × String)
  Body : ResponseBody
deriving DecidableEq, Repr

/-- APIResponse of the main file: fixed JSON content type, given status and
body. -/
def APIResponse (status : Nat) (body : ResponseBody) : APIGatewayProxyResponse :=
  ⟨status, [("Content-Type", "application/json")], body⟩

/-- The outcome of one handler invocation: an HTTP response, or the process
crashing on the nil-pointer dereference in the existence check. -/
inductive HandlerResult where
  | response (r : APIGatewayProxyResponse)
  | nilPanic
deriving DecidableEq, Repr

/-! ## The main-file handlers

Each handler is a function of the request, the current table and the fault
record, returning its outcome and the table after the invocation. -/

/-- fetchUser of the main file: GetItem then UnmarshalMap; a failing GetItem
yields the ErrorBody message, a missing item unmarshals to the zero record. -/
def fetchUser (email : String) (s : List Item) (getItemFails : Bool) : Except String User :=
  if getItemFails then Except.error ErrorFailedToFetchRecord
  else Except.ok (unmarshalMap ((storeGet s email).getD []))

/-- showUser of the main file. -/
def showUser (email : String) (s : List Item) (f : Faults) : HandlerResult :=
  match fetchUser email s f.getItemFails with
  | Except.error msg => HandlerResult.response (APIResponse 400 (ResponseBody.errorBody msg))
  | Except.ok user => HandlerResult.response (APIResponse 200 (ResponseBody.userBody user))

/-- listUsers of the main file. -/
def listUsers (s : List Item) (f : Faults) : HandlerResult :=
  if f.scanFails then
    HandlerResult.response (APIResponse 400 (ResponseBody.errorBody ErrorFailedToFetchRecord))
  else HandlerResult.response (APIResponse 200 (ResponseBody.scanBody (storeScan s)))

/-- getUser of the main file: single lookup when the email parameter is a
nonempty string, full scan otherwise. -/
def getUser (req : APIGatewayProxyRequest) (s : List Item) (f : Faults) : HandlerResult :=
  let email := queryParam req.QueryStringParameters "email"
  if decide (0 < email.length) then showUser email s f
  else listUsers s f

/-- createUser of the main file. The error of the existence-check lookup is
discarded; in that case currentUser is nil and len(currentUser.Email)
panics, modelled as nilPanic. -/
def createUser (req : APIGatewayProxyRequest) (s : List Item) (f : Faults) :
    HandlerResult × List Item :=
  match req.Body with
  | RequestBody.malformed =>
    (HandlerResult.response (APIResponse 422 (ResponseBody.errorBody ErrorInvalidUserData)), s)
  | RequestBody.parsed user =>
    if !isEmailValid user.Email then
      (HandlerResult.response (APIResponse 400 (ResponseBody.errorBody ErrorInvalidEmail)), s)
    else
      match fetchUser user.Email s f.getItemFails with
      | Except.error _ => (HandlerResult.nilPanic, s)
      | Except.ok currentUser =>
        if decide (currentUser.Email.length ≠ 0) then
          (HandlerResult.response (APIResponse 400 (ResponseBody.errorBody ErrorUserAlreadyExists)), s)
        else
          let av := marshalMap user
          if f.putItemFails then
            (HandlerResult.response (APIResponse 400 (ResponseBody.errorBody ErrorCouldNotDynamoPutItem)), s)
          else (HandlerResult.response (APIResponse 201 ResponseBody.empty), storePut s av)

/-- updateUser of the main file; note the parse failure reuses the
ErrorInvalidEmail text, and the same discarded lookup error panics. -/
def updateUser (req : APIGatewayProxyRequest) (s : List Item) (f : Faults) :
    HandlerResult × List Item :=
  match req.Body with
  | RequestBody.malformed =>
    (HandlerResult.response (APIResponse 422 (ResponseBody.errorBody ErrorInvalidEmail)), s)
  | RequestBody.parsed user =>
    match fetchUser user.Email s f.getItemFails with
    | Except.error _ => (HandlerResult.nilPanic, s)
    | Except.ok currentUser =>
      if decide (currentUser.Email.length = 0) then
        (HandlerResult.response (APIResponse 400 (ResponseBody.errorBody ErrorUserDoesNotExists)), s)
      else
        let av := marshalMap user
        if f.putItemFails then
          (HandlerResult.response (APIResponse 400 (ResponseBody.errorBody ErrorCouldNotDynamoPutItem)), s)
        else (HandlerResult.response (APIResponse 201 ResponseBody.empty), storePut s av)

/-- deleteUser of the main file: the email parameter is read with no
presence check and passed to DeleteItem as-is. -/
def deleteUser (req : APIGatewayProxyRequest) (s : List Item) (f : Faults) :
    HandlerResult × List Item :=
  let email := queryParam req.QueryStringParameters "email"
  if f.deleteItemFails then
    (HandlerResult.response (APIResponse 400 (ResponseBody.errorBody ErrorCouldNotDeleteItem)), s)
  else (HandlerResult.response (APIResponse 200 ResponseBody.deleteBody), storeDelete s email)

/-- handler of the main file: dispatch on the HTTP method only. -/
def handler (req : APIGatewayProxyRequest) (s : List Item) (f : Faults) :
    HandlerResult × List Item :=
  match req.HTTPMethod with
  | "GET" => (getUser req s f, s)
  | "POST" => createUser req s f
  | "PUT" => updateUser req s f
  | "DELETE" => deleteUser req s f
  | _ =>
    (HandlerResult.response (APIResponse 405 (ResponseBody.errorBody ErrorMethodNotAllowed)), s)

/-! ## The user package (pkg/user/user.go)

The same CRUD operations as library functions: they return the record or an
error instead of building HTTP responses, take the table name and client as
parameters, and use lowercase error strings. The nil dereference of the
discarded lookup error is present here too and modelled as an explicit
outcome. -/

namespace UserPkg

def ErrorFailedToUnmarshalRecord : String := "failed to unmarshal record"

def ErrorFailedToFetchRecord : String := "failed to fetch record"

def ErrorInvalidUserData : String := "invalid user data"

def ErrorInvalidEmail : String := "invalid email"

def ErrorCouldNotMarshalItem : String := "could not marshal item"

def ErrorCouldNotDeleteItem : String := "could not delete item"

def ErrorCouldNotDynamoPutItem : String := "could not dynamo put item error"

def ErrorUserAlreadyExists : String := "user.User already exists"

def ErrorUserDoesNotExists : String := "user.User does not exist"

/-- Outcome of CreateUser / UpdateUser: the saved record, an error, or the
nil-pointer crash in the existence check. -/
inductive OpResult where
  | ok (u : User)
  | err (msg : String)
  | nilPanic
deriving DecidableEq, Repr

/-- FetchUser of pkg/user: same calls as fetchUser of the main file, Go
error values instead of an ErrorBody. -/
def FetchUser (email tableName : String) (s : List Item) (getItemFails : Bool) :
    Except String User :=
  if getItemFails then Except.error ErrorFailedToFetchRecord
  else Except.ok (unmarshalMap ((storeGet s email).getD []))

/-- FetchUsers of pkg/user: the scan, or an error. -/
def FetchUsers (tableName : String) (s : List Item) (scanFails : Bool) :
    Except String (List Item) :=
  if scanFails then Except.error ErrorFailedToFetchRecord
  else Except.ok (storeScan s)

/-- Modelled from the spec: pkg/user calls an isEmailValid helper that is in
a file of the user package not present under src/; section 4.6 of the spec
describes a single validator component — strings of length 3 to 254 matching
the local-part at domain pattern with the listed special characters and
dot-separated DNS labels — which is the same check the main file performs. -/
def isEmailValid (email : String) : Bool :=
  if decide (email.length < 3) || decide (email.length > 254) || !rxEmailMatch email.toList
  then false
  else true

/-- CreateUser of pkg/user. -/
def CreateUser (req : APIGatewayProxyRequest) (tableName : String) (s : List Item) (f : Faults) :
    OpResult × List Item :=
  match req.Body with
  | RequestBody.malformed => (OpResult.err ErrorInvalidUserData, s)
  | RequestBody.parsed u =>
    if !isEmailValid u.Email then (OpResult.err ErrorInvalidEmail, s)
    else
      match FetchUser u.Email tableName s f.getItemFails with
      | Except.error _ => (OpResult.nilPanic, s)
      | Except.ok currentUser =>
        if decide (currentUser.Email.length ≠ 0) then (OpResult.err ErrorUserAlreadyExists, s)
        else
          let av := marshalMap u
          if f.putItemFails then (OpResult.err ErrorCouldNotDynamoPutItem, s)
          else (OpResult.ok u, storePut s av)

/-- UpdateUser of pkg/user. -/
def UpdateUser (req : APIGatewayProxyRequest) (tableName : String) (s : List Item) (f : Faults) :
    OpResult × List Item :=
  match req.Body with
  | RequestBody.malformed => (OpResult.err ErrorInvalidEmail, s)
  | RequestBody.parsed u =>
    match FetchUser u.Email tableName s f.getItemFails with
    | Except.error _ => (OpResult.nilPanic, s)
    | Except.ok currentUser =>
      if decide (currentUser.Email.length = 0) then (OpResult.err ErrorUserDoesNotExists, s)
      else
        let av := marshalMap u
        if f.putItemFails then (OpResult.err ErrorCouldNotDynamoPutItem, s)
        else (OpResult.ok u, storePut s av)

/-- DeleteUser of pkg/user: the error if DeleteItem failed, none otherwise. -/
def DeleteUser (req : APIGatewayProxyRequest) (tableName : String) (s : List Item) (f : Faults) :
    Option String × List Item :=
  let email := queryParam req.QueryStringParameters "email"
  if f.deleteItemFails then (some ErrorCouldNotDeleteItem, s)
  else (none, storeDelete s email)

end UserPkg

/-- Rejoin the pieces of a split with the separator. -/
def joinSep (sep : Char) : List (List Char) → List Char
  | [] => []
  | [l] => l
  | l :: ls => l ++ sep :: joinSep sep ls

/-- The local-part at domain pattern in the words of the spec, stated
independently of the matcher: the string decomposes as a local part of 1 to
64 characters of the local class, one at-sign, and a nonempty dot-separated
sequence of valid DNS labels. -/
def EmailShape (s : String) : Prop :=
  ∃ (lp : List Char) (labels : List (List Char)),
    s.toList = lp ++ '@' :: joinSep '.' labels ∧
    1 ≤ lp.length ∧ lp.length ≤ 64 ∧ (∀ c ∈ lp, isLocalChar c = true) ∧
    labels ≠ [] ∧ (∀ l ∈ labels, validLabel l = true)

/-! ## Lemmas about splitOnChar, and the joined form of a split -/

theorem splitOnChar_ne_nil (sep : Char) (xs : List Char) : splitOnChar sep xs ≠ [] := by
  induction xs with
  | nil => simp [splitOnChar]
  | cons c cs ih =>
    rw [splitOnChar]
    by_cases h : c = sep
    · simp [h]
    · simp only [if_neg h]
      obtain ⟨a, t, ht⟩ := List.exists_cons_of_ne_nil ih
      rw [ht]
      simp

theorem joinSep_splitOnChar (sep : Char) (xs : List Char) :
    joinSep sep (splitOnChar sep xs) = xs := by
  induction xs with
  | nil => rfl
  | cons c cs ih =>
    rw [splitOnChar]
    obtain ⟨a, t, ht⟩ := List.exists_cons_of_ne_nil (splitOnChar_ne_nil sep cs)
    by_cases h : c = sep
    · subst h
      rw [if_pos rfl, ht]
      rw [ht] at ih
      cases t with
      | nil =>
        simp only [joinSep] at ih ⊢
        simp [ih]
      | cons b t2 =>
        simp only [joinSep] at ih ⊢
        simp [ih]
    · rw [if_neg h, ht]
      rw [ht] at ih
      cases t with
      | nil =>
        simp only [joinSep] at ih ⊢
        simp [ih]
      | cons b t2 =>
        simp only [joinSep] at ih ⊢
        simpa using congrArg (c :: ·) ih

theorem splitOnChar_not_mem {sep : Char} {xs : List Char} (h : sep ∉ xs) :
    splitOnChar sep xs = [xs] := by
  induction xs with
  | nil => rfl
  | cons c cs ih =>
    have hc : ¬ c = sep := fun e => h (e ▸ List.mem_cons_self c cs)
    rw [splitOnChar, if_neg hc, ih (fun hm => h (List.mem_cons_of_mem _ hm))]

theorem splitOnChar_append_sep {sep : Char} {xs : List Char} (ys : List Char) (h : sep ∉ xs) :
    splitOnChar sep (xs ++ sep :: ys) = xs :: splitOnChar sep ys := by
  induction xs with
  | nil => simp [splitOnChar]
  | cons c cs ih =>
    have hc : ¬ c = sep := fun e => h (e ▸ List.mem_cons_self c cs)
    rw [List.cons_append, splitOnChar, if_neg hc, ih (fun hm => h (List.mem_cons_of_mem _ hm))]

theorem splitOnChar_joinSep {sep : Char} {ls : List (List Char)} (h : ls ≠ [])
    (h2 : ∀ l ∈ ls, sep ∉ l) : splitOnChar sep (joinSep sep ls) = ls := by
  induction ls with
  | nil => exact absurd rfl h
  | cons l ls ih =>
    cases ls with
    | nil => simpa only [joinSep] using splitOnChar_not_mem (h2 l (List.mem_cons_self l []))
    | cons l2 ls2 =>
      simp only [joinSep]
      rw [splitOnChar_append_sep _ (h2 l (List.mem_cons_self l _)),
        ih (List.cons_ne_nil l2 ls2) (fun x hx => h2 x (List.mem_cons_of_mem _ hx))]

theorem sep_not_mem_splitOnChar (sep : Char) (xs : List Char) :
    ∀ l ∈ splitOnChar sep xs, sep ∉ l := by
  induction xs with
  | nil =>
    intro l hl
    simp [splitOnChar] at hl
    simp [hl]
  | cons c cs ih =>
    intro l hl
    rw [splitOnChar] at hl
    obtain ⟨a, t, ht⟩ := List.exists_cons_of_ne_nil (splitOnChar_ne_nil sep cs)
    by_cases h : c = sep
    · rw [if_pos h] at hl
      rcases List.mem_cons.mp hl with rfl | hm
      · simp
      · exact ih l hm
    · rw [if_neg h, ht] at hl
      rcases List.mem_cons.mp hl with rfl | hm
      · intro hsep
        rcases List.mem_cons.mp hsep with he | ha
        · exact h he.symm
        · exact ih a (ht ▸ List.mem_cons_self a t) ha
      · exact ih l (ht ▸ List.mem_cons_of_mem a hm)

theorem mem_joinSep {c sep : Char} {ls : List (List Char)} (h : c ∈ joinSep sep ls) :
    c = sep ∨ ∃ l ∈ ls, c ∈ l := by
  induction ls with
  | nil => simp [joinSep] at h
  | cons l ls ih =>
    cases ls with
    | nil =>
      simp only [joinSep] at h
      exact Or.inr ⟨l, List.mem_cons_self l [], h⟩
    | cons l2 ls2 =>
      simp only [joinSep, List.mem_append, List.mem_cons] at h
      rcases h with hl | hsep | hrest
      · exact Or.inr ⟨l, List.mem_cons_self l _, hl⟩
      · exact Or.inl hsep
      · rcases ih hrest with hs | ⟨x, hx, hcx⟩
        · exact Or.inl hs
        · exact Or.inr ⟨x, List.mem_cons_of_mem l hx, hcx⟩

theorem validLabel_chars {l : List Char} (h : validLabel l = true) :
    ∀ c ∈ l, isLabelChar c = true := by
  cases l with
  | nil => simp [validLabel] at h
  | cons c cs =>
    simp only [validLabel, Bool.and_eq_true, List.all_eq_true, decide_eq_true_eq] at h
    intro d hd
    rcases List.mem_cons.mp hd with rfl | hm
    · simp [isLabelChar, h.1.1.1]
    · exact h.1.2 d hm

/-! ## Characterization of the email validator -/

theorem isEmailValid_iff (s : String) :
    isEmailValid s = true ↔ 3 ≤ s.length ∧ s.length ≤ 254 ∧ EmailShape s := by
  constructor
  · intro h
    rw [isEmailValid] at h
    split at h
    · exact absurd h Bool.false_ne_true
    · rename_i hcond
      simp only [Bool.or_eq_true, decide_eq_true_eq, Bool.not_eq_true', not_or,
        Bool.not_eq_false] at hcond
      obtain ⟨⟨h3, h254⟩, hrx⟩ := hcond
      refine ⟨by omega, by omega, ?_⟩
      rw [rxEmailMatch] at hrx
      split at hrx
      · rename_i lp dom heq
        simp only [Bool.and_eq_true, decide_eq_true_eq, List.all_eq_true] at hrx
        have hj : joinSep '@' (splitOnChar '@' s.toList) = s.toList := joinSep_splitOnChar _ _
        rw [heq] at hj
        have hdec : lp ++ '@' :: dom = s.toList := by simpa [joinSep] using hj
        refine ⟨lp, splitOnChar '.' dom, ?_, hrx.1.1.1, hrx.1.1.2, hrx.1.2,
          splitOnChar_ne_nil _ _, ?_⟩
        · rw [joinSep_splitOnChar]
          exact hdec.symm
        · have hvd := hrx.2
          simpa only [validDomain, List.all_eq_true] using hvd
      · exact absurd hrx Bool.false_ne_true
  · rintro ⟨h3, h254, lp, labels, heq, hlp1, hlp64, hlpc, hlne, hlv⟩
    have hlab_chars : ∀ l ∈ labels, ∀ c ∈ l, isLabelChar c = true :=
      fun l hl => validLabel_chars (hlv l hl)
    have hat_lp : '@' ∉ lp :=
      fun hm => (by decide : ¬ isLocalChar '@' = true) (hlpc _ hm)
    have hat_dom : '@' ∉ joinSep '.' labels := by
      intro hm
      rcases mem_joinSep hm with he | ⟨l, hl, hcl⟩
      · exact (by decide : ¬ ('@' : Char) = '.') he
      · exact (by decide : ¬ isLabelChar '@' = true) (hlab_chars l hl '@' hcl)
    have hdot_lab : ∀ l ∈ labels, '.' ∉ l :=
      fun l hl hm => (by decide : ¬ isLabelChar '.' = true) (hlab_chars l hl '.' hm)
    have hsplit : splitOnChar '@' s.toList = [lp, joinSep '.' labels] := by
      rw [heq, splitOnChar_append_sep _ hat_lp, splitOnChar_not_mem hat_dom]
    have hrx : rxEmailMatch s.toList = true := by
      rw [rxEmailMatch, hsplit]
      simp only [validDomain, splitOnChar_joinSep hlne hdot_lab, Bool.and_eq_true,
        decide_eq_true_eq, List.all_eq_true]
      exact ⟨⟨⟨hlp1, hlp64⟩, hlpc⟩, hlv⟩
    have c1 : decide (s.length < 3) = false := by simp; omega
    have c2 : decide (s.length > 254) = false := by simp; omega
    rw [isEmailValid, c1, c2, hrx]
    rfl

/-- C6: the email validator is a pure function returning true exactly for
strings of length 3 to 254 that decompose as a local part of admitted
characters, an at-sign, and a dot-separated sequence of DNS labels, and
false for every other string (too short, too long, or lacking that
structure); in particular "a@b.co" is accepted while "ab" and "foo@@bar"
are rejected. -/
theorem C6_email_validator :
    (∀ s : String, isEmailValid s = true ↔ 3 ≤ s.length ∧ s.length ≤ 254 ∧ EmailShape s) ∧
    isEmailValid "a@b.co" = true ∧ isEmailValid "ab" = false ∧
    isEmailValid "foo@@bar" = false :=
  ⟨isEmailValid_iff, by decide, by decide, by decide⟩

/-! ## Evaluation lemmas for the store -/

theorem unmarshalMap_marshalMap (u : User) : unmarshalMap (marshalMap u) = u := by
  cases u
  rfl

theorem itemKey_marshalMap (u : User) : itemKey (marshalMap u) = u.Email := rfl

theorem storeGet_storePut_self (s : List Item) (u : User) :
    storeGet (storePut s (marshalMap u)) u.Email = some (marshalMap u) := by
  simp [storeGet, storePut, List.find?, itemKey_marshalMap]

theorem length_pos_of_isEmailValid {e : String} (h : isEmailValid e = true) : 0 < e.length := by
  have := (isEmailValid_iff e).mp h
  omega

/-! ## Every handler produces a response when the lookup does not fail -/

theorem createUser_responds (req : APIGatewayProxyRequest) (s : List Item) (f : Faults)
    (h : f.getItemFails = false) :
    ∃ r, (createUser req s f).1 = HandlerResult.response r := by
  rw [createUser]
  split
  · exact ⟨_, rfl⟩
  · split
    · exact ⟨_, rfl⟩
    · simp only [fetchUser, h, Bool.false_eq_true, if_false]
      split
      · exact ⟨_, rfl⟩
      · split
        · exact ⟨_, rfl⟩
        · exact ⟨_, rfl⟩

theorem updateUser_responds (req : APIGatewayProxyRequest) (s : List Item) (f : Faults)
    (h : f.getItemFails = false) :
    ∃ r, (updateUser req s f).1 = HandlerResult.response r := by
  rw [updateUser]
  split
  · exact ⟨_, rfl⟩
  · simp only [fetchUser, h, Bool.false_eq_true, if_false]
    split
    · exact ⟨_, rfl⟩
    · split
      · exact ⟨_, rfl⟩
      · exact ⟨_, rfl⟩

theorem getUser_responds (req : APIGatewayProxyRequest) (s : List Item) (f : Faults)
    (h : f.getItemFails = false) :
    ∃ r, getUser req s f = HandlerResult.response r := by
  rw [getUser]
  split
  · rw [showUser]
    simp only [fetchUser, h, Bool.false_eq_true, if_false]
    exact ⟨_, rfl⟩
  · rw [listUsers]
    split
    · exact ⟨_, rfl⟩
    · exact ⟨_, rfl⟩

theorem deleteUser_responds (req : APIGatewayProxyRequest) (s : List Item) (f : Faults) :
    ∃ r, (deleteUser req s f).1 = HandlerResult.response r := by
  rw [deleteUser]
  split
  · exact ⟨_, rfl⟩
  · exact ⟨_, rfl⟩

/-- C1 (amended): whenever the existence-check lookup does not fail, the
handler answers every request with an HTTP response — all validation,
business-rule and store failures are reported in the response; when the
lookup does fail during a create or update, the handler instead hits the
nil dereference (see the counterexample) rather than producing a response. -/
theorem C1_handler_responds (req : APIGatewayProxyRequest) (s : List Item) (f : Faults)
    (h : f.getItemFails = false) :
    ∃ r, (handler req s f).1 = HandlerResult.response r := by
  rw [handler]
  split
  · exact getUser_responds req s f h
  · exact createUser_responds req s f h
  · exact updateUser_responds req s f h
  · exact deleteUser_responds req s f
  · exact ⟨_, rfl⟩

theorem C1_witness :
    noFaults.getItemFails = false ∧
    ∃ r, (handler ⟨"POST", [], RequestBody.parsed ⟨"a@b.com", "Jane", "Doe"⟩⟩ [] noFaults).1 =
      HandlerResult.response r :=
  ⟨rfl, C1_handler_responds ⟨"POST", [], RequestBody.parsed ⟨"a@b.com", "Jane", "Doe"⟩⟩ [] noFaults rfl⟩

/-- C1 as stated is false: on a POST whose body parses to a valid record but
whose existence-check lookup fails, createUser dereferences the nil record
pointer — the invocation crashes and no response is produced. -/
theorem C1_counterexample :
    (handler ⟨"POST", [], RequestBody.parsed ⟨"a@b.com", "Jane", "Doe"⟩⟩ []
      ⟨true, false, false, false⟩).1 = HandlerResult.nilPanic := by decide

/-! ## Evaluation lemmas for createUser and updateUser -/

theorem createUser_malformed {req : APIGatewayProxyRequest} (s : List Item) (f : Faults)
    (hb : req.Body = RequestBody.malformed) :
    createUser req s f =
      (HandlerResult.response (APIResponse 422 (ResponseBody.errorBody ErrorInvalidUserData)), s) := by
  rw [createUser, hb]

theorem createUser_invalid {req : APIGatewayProxyRequest} (s : List Item) (f : Faults)
    {u : User} (hb : req.Body = RequestBody.parsed u) (hv : isEmailValid u.Email = false) :
    createUser req s f =
      (HandlerResult.response (APIResponse 400 (ResponseBody.errorBody ErrorInvalidEmail)), s) := by
  rw [createUser, hb]
  simp [hv]

theorem createUser_exists {req : APIGatewayProxyRequest} {s : List Item} {f : Faults}
    {u : User} (hb : req.Body = RequestBody.parsed u) (hv : isEmailValid u.Email = true)
    (hg : f.getItemFails = false)
    (he : (unmarshalMap ((storeGet s u.Email).getD [])).Email ≠ "") :
    createUser req s f =
      (HandlerResult.response (APIResponse 400 (ResponseBody.errorBody ErrorUserAlreadyExists)), s) := by
  rw [createUser, hb]
  have hlen : (unmarshalMap ((storeGet s u.Email).getD [])).Email.length ≠ 0 := by
    intro h0
    exact he (String.ext (by simpa [String.length] using List.length_eq_zero.mp h0))
  simp [hv, fetchUser, hg, hlen]

theorem createUser_putfail {req : APIGatewayProxyRequest} {s : List Item} {f : Faults}
    {u : User} (hb : req.Body = RequestBody.parsed u) (hv : isEmailValid u.Email = true)
    (hg : f.getItemFails = false)
    (he : (unmarshalMap ((storeGet s u.Email).getD [])).Email = "")
    (hp : f.putItemFails = true) :
    createUser req s f =
      (HandlerResult.response (APIResponse 400 (ResponseBody.errorBody ErrorCouldNotDynamoPutItem)), s) := by
  rw [createUser, hb]
  simp [hv, fetchUser, hg, he, hp]

theorem createUser_success {req : APIGatewayProxyRequest} {s : List Item} {f : Faults}
    {u : User} (hb : req.Body = RequestBody.parsed u) (hv : isEmailValid u.Email = true)
    (hg : f.getItemFails = false)
    (he : (unmarshalMap ((storeGet s u.Email).getD [])).Email = "")
    (hp : f.putItemFails = false) :
    createUser req s f =
      (HandlerResult.response (APIResponse 201 ResponseBody.empty), storePut s (marshalMap u)) := by
  rw [createUser, hb]
  simp [hv, fetchUser, hg, he, hp]

theorem updateUser_malformed {req : APIGatewayProxyRequest} (s : List Item) (f : Faults)
    (hb : req.Body = RequestBody.malformed) :
    updateUser req s f =
      (HandlerResult.response (APIResponse 422 (ResponseBody.errorBody ErrorInvalidEmail)), s) := by
  rw [updateUser, hb]

theorem updateUser_missing {req : APIGatewayProxyRequest} {s : List Item} {f : Faults}
    {u : User} (hb : req.Body = RequestBody.parsed u) (hg : f.getItemFails = false)
    (he : (unmarshalMap ((storeGet s u.Email).getD [])).Email = "") :
    updateUser req s f =
      (HandlerResult.response (APIResponse 400 (ResponseBody.errorBody ErrorUserDoesNotExists)), s) := by
  rw [updateUser, hb]
  simp [fetchUser, hg, he]

theorem updateUser_success {req : APIGatewayProxyRequest} {s : List Item} {f : Faults}
    {u : User} (hb : req.Body = RequestBody.parsed u) (hg : f.getItemFails = false)
    (he : (unmarshalMap ((storeGet s u.Email).getD [])).Email ≠ "")
    (hp : f.putItemFails = false) :
    updateUser req s f =
      (HandlerResult.response (APIResponse 201 ResponseBody.empty), storePut s (marshalMap u)) := by
  rw [updateUser, hb]
  have hlen : (unmarshalMap ((storeGet s u.Email).getD [])).Email.length ≠ 0 := by
    intro h0
    exact he (String.ext (by simpa [String.length] using List.length_eq_zero.mp h0))
  simp [fetchUser, hg, hlen, hp]

/-- C2 (amended): on POST, a body that does not parse yields HTTP 422 with
the error "Invalid User Data"; a parsed body with an invalid email yields
HTTP 400 with "Invalid Email"; and when every step succeeds (check passes,
no store fault) the response is HTTP 201 with an empty body. The claim as
frozen quotes the two messages in lowercase; the code capitalizes them. -/
theorem C2_create_responses (req : APIGatewayProxyRequest) (s : List Item) (f : Faults)
    (u : User) :
    (req.Body = RequestBody.malformed →
      (createUser req s f).1 =
        HandlerResult.response (APIResponse 422 (ResponseBody.errorBody ErrorInvalidUserData))) ∧
    (req.Body = RequestBody.parsed u → isEmailValid u.Email = false →
      (createUser req s f).1 =
        HandlerResult.response (APIResponse 400 (ResponseBody.errorBody ErrorInvalidEmail))) ∧
    (req.Body = RequestBody.parsed u → isEmailValid u.Email = true →
      f.getItemFails = false →
      (unmarshalMap ((storeGet s u.Email).getD [])).Email = "" →
      f.putItemFails = false →
      (createUser req s f).1 = HandlerResult.response (APIResponse 201 ResponseBody.empty)) := by
  refine ⟨fun hb => ?_, fun hb hv => ?_, fun hb hv hg he hp => ?_⟩
  · rw [createUser_malformed s f hb]
  · rw [createUser_invalid s f hb hv]
  · rw [createUser_success hb hv hg he hp]

theorem C2_witness :
    (createUser ⟨"POST", [], RequestBody.malformed⟩ [] noFaults).1 =
      HandlerResult.response (APIResponse 422 (ResponseBody.errorBody ErrorInvalidUserData)) ∧
    (createUser ⟨"POST", [], RequestBody.parsed ⟨"ab", "J", "D"⟩⟩ [] noFaults).1 =
      HandlerResult.response (APIResponse 400 (ResponseBody.errorBody ErrorInvalidEmail)) ∧
    (createUser ⟨"POST", [], RequestBody.parsed ⟨"a@b.com", "J", "D"⟩⟩ [] noFaults).1 =
      HandlerResult.response (APIResponse 201 ResponseBody.empty) :=
  ⟨(C2_create_responses ⟨"POST", [], RequestBody.malformed⟩ [] noFaults ⟨"", "", ""⟩).1 rfl,
   (C2_create_responses ⟨"POST", [], RequestBody.parsed ⟨"ab", "J", "D"⟩⟩ [] noFaults
      ⟨"ab", "J", "D"⟩).2.1 rfl (by decide),
   (C2_create_responses ⟨"POST", [], RequestBody.parsed ⟨"a@b.com", "J", "D"⟩⟩ [] noFaults
      ⟨"a@b.com", "J", "D"⟩).2.2 rfl (by decide) rfl rfl rfl⟩

/-- C2 as stated is false only in the wording of the messages: the parse
failure message is "Invalid User Data", not "invalid user data", and the
validation message is "Invalid Email", not "invalid email". -/
theorem C2_counterexample :
    (createUser ⟨"POST", [], RequestBody.malformed⟩ [] noFaults).1 =
      HandlerResult.response (APIResponse 422 (ResponseBody.errorBody "Invalid User Data")) ∧
    "Invalid User Data" ≠ "invalid user data" ∧
    (createUser ⟨"POST", [], RequestBody.parsed ⟨"ab", "J", "D"⟩⟩ [] noFaults).1 =
      HandlerResult.response (APIResponse 400 (ResponseBody.errorBody "Invalid Email")) ∧
    "Invalid Email" ≠ "invalid email" :=
  ⟨by decide, by decide, by decide, by decide⟩

theorem email_ne_empty {e : String} (h : isEmailValid e = true) : e ≠ "" := by
  intro h0
  rw [h0] at h
  exact absurd h (by decide)

/-- C3 (amended): starting from a store without a given valid email, two
POSTs creating that email yield HTTP 201 then HTTP 400 with
"User already exists" (the claim as frozen writes the message in
lowercase); the create handler rejects exactly when the record produced by
the existence-check lookup has a non-empty email field. -/
theorem C3_double_create (s : List Item) (u : User)
    (hv : isEmailValid u.Email = true) (habs : storeGet s u.Email = none) :
    (handler ⟨"POST", [], RequestBody.parsed u⟩ s noFaults).1 =
      HandlerResult.response (APIResponse 201 ResponseBody.empty) ∧
    (handler ⟨"POST", [], RequestBody.parsed u⟩
        ((handler ⟨"POST", [], RequestBody.parsed u⟩ s noFaults).2) noFaults).1 =
      HandlerResult.response (APIResponse 400 (ResponseBody.errorBody ErrorUserAlreadyExists)) ∧
    ∀ (s2 : List Item) (f : Faults) (u2 : User), isEmailValid u2.Email = true →
      f.getItemFails = false →
      ((createUser ⟨"POST", [], RequestBody.parsed u2⟩ s2 f).1 =
          HandlerResult.response (APIResponse 400 (ResponseBody.errorBody ErrorUserAlreadyExists)) ↔
        (unmarshalMap ((storeGet s2 u2.Email).getD [])).Email ≠ "") := by
  have hh : ∀ st : List Item, handler ⟨"POST", [], RequestBody.parsed u⟩ st noFaults =
      createUser ⟨"POST", [], RequestBody.parsed u⟩ st noFaults := fun st => rfl
  have he0 : (unmarshalMap ((storeGet s u.Email).getD [])).Email = "" := by
    rw [habs]
    rfl
  have h1 : createUser ⟨"POST", [], RequestBody.parsed u⟩ s noFaults =
      (HandlerResult.response (APIResponse 201 ResponseBody.empty), storePut s (marshalMap u)) :=
    createUser_success rfl hv rfl he0 rfl
  refine ⟨?_, ?_, ?_⟩
  · rw [hh, h1]
  · rw [hh, hh, h1]
    have he1 : (unmarshalMap ((storeGet (storePut s (marshalMap u)) u.Email).getD [])).Email ≠ "" := by
      rw [storeGet_storePut_self]
      simpa [unmarshalMap_marshalMap] using email_ne_empty hv
    rw [createUser_exists rfl hv rfl he1]
  · intro s2 f u2 hv2 hg2
    by_cases he : (unmarshalMap ((storeGet s2 u2.Email).getD [])).Email = ""
    · simp only [he, ne_eq, not_true_eq_false, iff_false]
      intro hl
      cases hp : f.putItemFails
      · rw [createUser_success rfl hv2 hg2 he hp] at hl
        have hl2 : HandlerResult.response (APIResponse 201 ResponseBody.empty) =
            HandlerResult.response (APIResponse 400 (ResponseBody.errorBody ErrorUserAlreadyExists)) := hl
        exact absurd hl2 (by decide)
      · rw [createUser_putfail rfl hv2 hg2 he hp] at hl
        have hl2 : HandlerResult.response (APIResponse 400 (ResponseBody.errorBody ErrorCouldNotDynamoPutItem)) =
            HandlerResult.response (APIResponse 400 (ResponseBody.errorBody ErrorUserAlreadyExists)) := hl
        exact absurd hl2 (by decide)
    · simp only [ne_eq, he, not_false_eq_true, iff_true]
      rw [createUser_exists rfl hv2 hg2 he]

theorem C3_witness :
    (handler ⟨"POST", [], RequestBody.parsed ⟨"a@b.com", "J", "D"⟩⟩ [] noFaults).1 =
      HandlerResult.response (APIResponse 201 ResponseBody.empty) ∧
    (handler ⟨"POST", [], RequestBody.parsed ⟨"a@b.com", "J", "D"⟩⟩
        ((handler ⟨"POST", [], RequestBody.parsed ⟨"a@b.com", "J", "D"⟩⟩ [] noFaults).2) noFaults).1 =
      HandlerResult.response (APIResponse 400 (ResponseBody.errorBody ErrorUserAlreadyExists)) :=
  ⟨(C3_double_create [] ⟨"a@b.com", "J", "D"⟩ (by decide) rfl).1,
   (C3_double_create [] ⟨"a@b.com", "J", "D"⟩ (by decide) rfl).2.1⟩

/-- C3 as stated is false only in the wording of the message on the second
call: the code answers "User already exists", not "user already exists". -/
theorem C3_counterexample :
    (handler ⟨"POST", [], RequestBody.parsed ⟨"a@b.com", "J", "D"⟩⟩
        ((handler ⟨"POST", [], RequestBody.parsed ⟨"a@b.com", "J", "D"⟩⟩ [] noFaults).2) noFaults).1 =
      HandlerResult.response (APIResponse 400 (ResponseBody.errorBody "User already exists")) ∧
    "User already exists" ≠ "user already exists" :=
  ⟨by decide, by decide⟩

/-! ## Dispatch lemmas for the top-level handler -/

theorem handler_GET (req : APIGatewayProxyRequest) (s : List Item) (f : Faults)
    (hm : req.HTTPMethod = "GET") : handler req s f = (getUser req s f, s) := by
  rw [handler]
  split <;> simp_all

theorem handler_POST (req : APIGatewayProxyRequest) (s : List Item) (f : Faults)
    (hm : req.HTTPMethod = "POST") : handler req s f = createUser req s f := by
  rw [handler]
  split <;> simp_all

theorem handler_PUT (req : APIGatewayProxyRequest) (s : List Item) (f : Faults)
    (hm : req.HTTPMethod = "PUT") : handler req s f = updateUser req s f := by
  rw [handler]
  split <;> simp_all

theorem handler_DELETE (req : APIGatewayProxyRequest) (s : List Item) (f : Faults)
    (hm : req.HTTPMethod = "DELETE") : handler req s f = deleteUser req s f := by
  rw [handler]
  split <;> simp_all

theorem handler_other (req : APIGatewayProxyRequest) (s : List Item) (f : Faults)
    (h1 : req.HTTPMethod ≠ "GET") (h2 : req.HTTPMethod ≠ "POST")
    (h3 : req.HTTPMethod ≠ "PUT") (h4 : req.HTTPMethod ≠ "DELETE") :
    handler req s f =
      (HandlerResult.response (APIResponse 405 (ResponseBody.errorBody ErrorMethodNotAllowed)), s) := by
  rw [handler]
  split <;> simp_all

/-! ## Evaluation lemmas for the GET path -/

theorem length_ne_zero_of_ne_empty {s : String} (h : s ≠ "") : s.length ≠ 0 :=
  fun h0 => h (String.ext (by simpa [String.length] using List.length_eq_zero.mp h0))

theorem getUser_lookup (req : APIGatewayProxyRequest) (s : List Item) (f : Faults)
    {v : String × String}
    (hq : req.QueryStringParameters.find? (fun p => p.1 == "email") = some v)
    (hv : v.2 ≠ "") : getUser req s f = showUser v.2 s f := by
  rw [getUser]
  have hqe : queryParam req.QueryStringParameters "email" = v.2 := by
    rw [queryParam, hq]
  rw [hqe]
  simp [Nat.pos_of_ne_zero (length_ne_zero_of_ne_empty hv)]

theorem getUser_scan (req : APIGatewayProxyRequest) (s : List Item) (f : Faults)
    (hq : req.QueryStringParameters.find? (fun p => p.1 == "email") = none) :
    getUser req s f = listUsers s f := by
  rw [getUser]
  have hqe : queryParam req.QueryStringParameters "email" = "" := by
    rw [queryParam, hq]
  rw [hqe]
  simp

theorem showUser_fault (e : String) (s : List Item) {f : Faults} (hg : f.getItemFails = true) :
    showUser e s f =
      HandlerResult.response (APIResponse 400 (ResponseBody.errorBody ErrorFailedToFetchRecord)) := by
  rw [showUser]
  simp [fetchUser, hg]

theorem showUser_ok (e : String) (s : List Item) {f : Faults} (hg : f.getItemFails = false) :
    showUser e s f =
      HandlerResult.response (APIResponse 200
        (ResponseBody.userBody (unmarshalMap ((storeGet s e).getD [])))) := by
  rw [showUser]
  simp [fetchUser, hg]

/-- C4 (amended): on GET with a present nonempty email parameter, the
handler does a single-item lookup by that exact email: HTTP 400 with
"Failed to fetch record" when the GetItem call fails, and HTTP 200 with the
record it read otherwise — an email that is not in the table is NOT a
lookup failure: the GetItem call succeeds with no item and the handler
answers HTTP 200 with the zero-valued record. With the email parameter
absent, the handler scans the whole table and returns every item with HTTP
200, or HTTP 400 with the same message when the scan fails. -/
theorem C4_get_behaviour (req : APIGatewayProxyRequest) (s : List Item) (f : Faults)
    (hm : req.HTTPMethod = "GET") :
    (∀ v : String × String,
      req.QueryStringParameters.find? (fun p => p.1 == "email") = some v → v.2 ≠ "" →
      (f.getItemFails = true → (handler req s f).1 =
        HandlerResult.response (APIResponse 400 (ResponseBody.errorBody ErrorFailedToFetchRecord))) ∧
      (f.getItemFails = false → (handler req s f).1 =
        HandlerResult.response (APIResponse 200
          (ResponseBody.userBody (unmarshalMap ((storeGet s v.2).getD [])))))) ∧
    (req.QueryStringParameters.find? (fun p => p.1 == "email") = none →
      (f.scanFails = true → (handler req s f).1 =
        HandlerResult.response (APIResponse 400 (ResponseBody.errorBody ErrorFailedToFetchRecord))) ∧
      (f.scanFails = false → (handler req s f).1 =
        HandlerResult.response (APIResponse 200 (ResponseBody.scanBody (storeScan s))))) := by
  rw [handler_GET req s f hm]
  refine ⟨fun v hq hv => ⟨fun hg => ?_, fun hg => ?_⟩, fun hq => ⟨fun hsc => ?_, fun hsc => ?_⟩⟩
  · rw [getUser_lookup req s f hq hv, showUser_fault v.2 s hg]
  · rw [getUser_lookup req s f hq hv, showUser_ok v.2 s hg]
  · rw [getUser_scan req s f hq, listUsers]
    simp [hsc]
  · rw [getUser_scan req s f hq, listUsers]
    simp [hsc]

theorem C4_witness :
    (handler ⟨"GET", [("email", "x")], RequestBody.malformed⟩ []
        ⟨true, false, false, false⟩).1 =
      HandlerResult.response (APIResponse 400 (ResponseBody.errorBody ErrorFailedToFetchRecord)) ∧
    (handler ⟨"GET", [], RequestBody.malformed⟩ [] noFaults).1 =
      HandlerResult.response (APIResponse 200 (ResponseBody.scanBody [])) :=
  ⟨((C4_get_behaviour ⟨"GET", [("email", "x")], RequestBody.malformed⟩ []
      ⟨true, false, false, false⟩ rfl).1 ("email", "x") rfl (by decide)).1 rfl,
   ((C4_get_behaviour ⟨"GET", [], RequestBody.malformed⟩ [] noFaults rfl).2 rfl).2 rfl⟩

/-- C4 as stated is false: fetching an email that is absent from the table
does not yield HTTP 400 — the lookup succeeds and the handler answers HTTP
200 with the zero-valued record; moreover the failure message is
"Failed to fetch record", not "failed to fetch record". -/
theorem C4_counterexample :
    (handler ⟨"GET", [("email", "x")], RequestBody.malformed⟩ [] noFaults).1 =
      HandlerResult.response (APIResponse 200 (ResponseBody.userBody ⟨"", "", ""⟩)) ∧
    "Failed to fetch record" ≠ "failed to fetch record" :=
  ⟨by decide, by decide⟩

/-- C5 (amended): on PUT, a body that does not parse yields HTTP 422 with
the error text "Invalid Email" (the email-validation message reused for a
generic parse failure; the claim as frozen writes it in lowercase); a
parsed body whose looked-up record has an empty email field yields HTTP 400
with "User does not exist"; and on success the response is HTTP 201. -/
theorem C5_update_responses (req : APIGatewayProxyRequest) (s : List Item) (f : Faults)
    (u : User) :
    (req.Body = RequestBody.malformed →
      (updateUser req s f).1 =
        HandlerResult.response (APIResponse 422 (ResponseBody.errorBody ErrorInvalidEmail))) ∧
    (req.Body = RequestBody.parsed u → f.getItemFails = false →
      (unmarshalMap ((storeGet s u.Email).getD [])).Email = "" →
      (updateUser req s f).1 =
        HandlerResult.response (APIResponse 400 (ResponseBody.errorBody ErrorUserDoesNotExists))) ∧
    (req.Body = RequestBody.parsed u → f.getItemFails = false →
      (unmarshalMap ((storeGet s u.Email).getD [])).Email ≠ "" → f.putItemFails = false →
      (updateUser req s f).1 = HandlerResult.response (APIResponse 201 ResponseBody.empty)) := by
  refine ⟨fun hb => ?_, fun hb hg he => ?_, fun hb hg he hp => ?_⟩
  · rw [updateUser_malformed s f hb]
  · rw [updateUser_missing hb hg he]
  · rw [updateUser_success hb hg he hp]

theorem C5_witness :
    (updateUser ⟨"PUT", [], RequestBody.malformed⟩ [] noFaults).1 =
      HandlerResult.response (APIResponse 422 (ResponseBody.errorBody ErrorInvalidEmail)) ∧
    (updateUser ⟨"PUT", [], RequestBody.parsed ⟨"a@b.com", "J", "D"⟩⟩ [] noFaults).1 =
      HandlerResult.response (APIResponse 400 (ResponseBody.errorBody ErrorUserDoesNotExists)) ∧
    (updateUser ⟨"PUT", [], RequestBody.parsed ⟨"a@b.com", "J", "D"⟩⟩
        [marshalMap ⟨"a@b.com", "A", "B"⟩] noFaults).1 =
      HandlerResult.response (APIResponse 201 ResponseBody.empty) :=
  ⟨(C5_update_responses ⟨"PUT", [], RequestBody.malformed⟩ [] noFaults ⟨"", "", ""⟩).1 rfl,
   (C5_update_responses ⟨"PUT", [], RequestBody.parsed ⟨"a@b.com", "J", "D"⟩⟩ [] noFaults
      ⟨"a@b.com", "J", "D"⟩).2.1 rfl rfl rfl,
   (C5_update_responses ⟨"PUT", [], RequestBody.parsed ⟨"a@b.com", "J", "D"⟩⟩
      [marshalMap ⟨"a@b.com", "A", "B"⟩] noFaults ⟨"a@b.com", "J", "D"⟩).2.2 rfl rfl
      (by decide) rfl⟩

/-- C5 as stated is false only in the wording of the messages: the parse
failure text is "Invalid Email", not "invalid email", and the missing-user
text is "User does not exist", not "user does not exist". -/
theorem C5_counterexample :
    (updateUser ⟨"PUT", [], RequestBody.malformed⟩ [] noFaults).1 =
      HandlerResult.response (APIResponse 422 (ResponseBody.errorBody "Invalid Email")) ∧
    "Invalid Email" ≠ "invalid email" ∧
    (updateUser ⟨"PUT", [], RequestBody.parsed ⟨"a@b.com", "J", "D"⟩⟩ [] noFaults).1 =
      HandlerResult.response (APIResponse 400 (ResponseBody.errorBody "User does not exist")) ∧
    "User does not exist" ≠ "user does not exist" :=
  ⟨by decide, by decide, by decide, by decide⟩

/-- C7 (amended): on DELETE the handler reads the email query parameter
with no presence check (an absent parameter becomes the empty string and is
passed to DeleteItem as-is), and returns HTTP 200 with the raw store
response whenever the DeleteItem call succeeds — whether or not the email
exists in the table — and HTTP 400 with "Could not delete item" (the claim
as frozen writes it in lowercase) exactly when the call fails. -/
theorem C7_delete_behaviour (req : APIGatewayProxyRequest) (s : List Item) (f : Faults)
    (hm : req.HTTPMethod = "DELETE") :
    (f.deleteItemFails = false →
      handler req s f = (HandlerResult.response (APIResponse 200 ResponseBody.deleteBody),
        storeDelete s (queryParam req.QueryStringParameters "email"))) ∧
    (f.deleteItemFails = true →
      handler req s f =
        (HandlerResult.response (APIResponse 400 (ResponseBody.errorBody ErrorCouldNotDeleteItem)),
          s)) ∧
    (req.QueryStringParameters.find? (fun p => p.1 == "email") = none →
      queryParam req.QueryStringParameters "email" = "") := by
  rw [handler_DELETE req s f hm]
  refine ⟨fun hd => ?_, fun hd => ?_, fun hq => ?_⟩
  · rw [deleteUser]
    simp [hd]
  · rw [deleteUser]
    simp [hd]
  · rw [queryParam, hq]

theorem C7_witness :
    handler ⟨"DELETE", [("email", "ghost@b.com")], RequestBody.malformed⟩ [] noFaults =
      (HandlerResult.response (APIResponse 200 ResponseBody.deleteBody), []) ∧
    handler ⟨"DELETE", [], RequestBody.malformed⟩ [] ⟨false, false, false, true⟩ =
      (HandlerResult.response (APIResponse 400 (ResponseBody.errorBody ErrorCouldNotDeleteItem)),
        []) :=
  ⟨(C7_delete_behaviour ⟨"DELETE", [("email", "ghost@b.com")], RequestBody.malformed⟩ []
      noFaults rfl).1 rfl,
   (C7_delete_behaviour ⟨"DELETE", [], RequestBody.malformed⟩ []
      ⟨false, false, false, true⟩ rfl).2.1 rfl⟩

/-- C7 as stated is false only in the wording of the message: the code
answers "Could not delete item", not "could not delete item". -/
theorem C7_counterexample :
    (handler ⟨"DELETE", [], RequestBody.malformed⟩ [] ⟨false, false, false, true⟩).1 =
      HandlerResult.response (APIResponse 400 (ResponseBody.errorBody "Could not delete item")) ∧
    "Could not delete item" ≠ "could not delete item" :=
  ⟨by decide, by decide⟩

/-- C9 (amended): the top-level handler routes on the HTTP method alone
(the model carries no request path at all): GET to the fetch flow, POST to
create, PUT to update, DELETE to delete, and every other method to HTTP 405
with the error "Method Not Allowed" (the claim as frozen writes the message
in lowercase). -/
theorem C9_dispatch (req : APIGatewayProxyRequest) (s : List Item) (f : Faults) :
    (req.HTTPMethod = "GET" → handler req s f = (getUser req s f, s)) ∧
    (req.HTTPMethod = "POST" → handler req s f = createUser req s f) ∧
    (req.HTTPMethod = "PUT" → handler req s f = updateUser req s f) ∧
    (req.HTTPMethod = "DELETE" → handler req s f = deleteUser req s f) ∧
    (req.HTTPMethod ≠ "GET" → req.HTTPMethod ≠ "POST" → req.HTTPMethod ≠ "PUT" →
      req.HTTPMethod ≠ "DELETE" →
      handler req s f =
        (HandlerResult.response (APIResponse 405 (ResponseBody.errorBody ErrorMethodNotAllowed)),
          s)) :=
  ⟨handler_GET req s f, handler_POST req s f, handler_PUT req s f, handler_DELETE req s f,
   handler_other req s f⟩

theorem C9_witness :
    handler ⟨"GET", [], RequestBody.malformed⟩ [] noFaults =
      (getUser ⟨"GET", [], RequestBody.malformed⟩ [] noFaults, []) ∧
    handler ⟨"PATCH", [], RequestBody.malformed⟩ [] noFaults =
      (HandlerResult.response (APIResponse 405 (ResponseBody.errorBody ErrorMethodNotAllowed)),
        []) :=
  ⟨(C9_dispatch ⟨"GET", [], RequestBody.malformed⟩ [] noFaults).1 rfl,
   (C9_dispatch ⟨"PATCH", [], RequestBody.malformed⟩ [] noFaults).2.2.2.2
      (by decide) (by decide) (by decide) (by decide)⟩

/-- C9 as stated is false only in the wording of the 405 body: an
unsupported method such as PATCH is answered with "Method Not Allowed",
not "method not allowed". -/
theorem C9_counterexample :
    (handler ⟨"PATCH", [], RequestBody.malformed⟩ [] noFaults).1 =
      HandlerResult.response (APIResponse 405 (ResponseBody.errorBody "Method Not Allowed")) ∧
    "Method Not Allowed" ≠ "method not allowed" :=
  ⟨by decide, by decide⟩

/-- C8: serializing a record to the attribute format and deserializing back
preserves email, firstName and lastName exactly; consequently creating a
user and then immediately fetching the same email returns the very record
that was created. -/
theorem C8_roundtrip :
    (∀ u : User, unmarshalMap (marshalMap u) = u) ∧
    ∀ (s : List Item) (u : User), isEmailValid u.Email = true → storeGet s u.Email = none →
      fetchUser u.Email ((createUser ⟨"POST", [], RequestBody.parsed u⟩ s noFaults).2) false =
        Except.ok u := by
  refine ⟨unmarshalMap_marshalMap, fun s u hv habs => ?_⟩
  have he0 : (unmarshalMap ((storeGet s u.Email).getD [])).Email = "" := by
    rw [habs]
    rfl
  rw [createUser_success rfl hv rfl he0 rfl]
  simp [fetchUser, storeGet_storePut_self, unmarshalMap_marshalMap]

theorem C8_witness :
    unmarshalMap (marshalMap ⟨"a@b.com", "Jane", "Doe"⟩) = (⟨"a@b.com", "Jane", "Doe"⟩ : User) ∧
    fetchUser "a@b.com"
        ((createUser ⟨"POST", [], RequestBody.parsed ⟨"a@b.com", "Jane", "Doe"⟩⟩ [] noFaults).2)
        false = Except.ok ⟨"a@b.com", "Jane", "Doe"⟩ :=
  ⟨C8_roundtrip.1 ⟨"a@b.com", "Jane", "Doe"⟩,
   C8_roundtrip.2 [] ⟨"a@b.com", "Jane", "Doe"⟩ (by decide) rfl⟩

/-! ## Refinement between pkg/user and the main-file handlers -/

theorem UserPkg_isEmailValid_eq (e : String) : UserPkg.isEmailValid e = isEmailValid e := rfl

theorem create_refines (req : APIGatewayProxyRequest) (tableName : String) (s : List Item)
    (f : Faults) :
    (UserPkg.CreateUser req tableName s f).2 = (createUser req s f).2 ∧
    ((∃ u, (UserPkg.CreateUser req tableName s f).1 = UserPkg.OpResult.ok u) ↔
      (createUser req s f).1 = HandlerResult.response (APIResponse 201 ResponseBody.empty)) ∧
    ((UserPkg.CreateUser req tableName s f).1 = UserPkg.OpResult.nilPanic ↔
      (createUser req s f).1 = HandlerResult.nilPanic) := by
  rcases hb : req.Body with _ | u
  · simp [UserPkg.CreateUser, createUser, hb, APIResponse]
  · by_cases hv : isEmailValid u.Email
    · cases hg : f.getItemFails
      · by_cases he : (unmarshalMap ((storeGet s u.Email).getD [])).Email.length = 0
        · cases hp : f.putItemFails
          · simp [UserPkg.CreateUser, createUser, hb, UserPkg_isEmailValid_eq, hv,
              UserPkg.FetchUser, fetchUser, hg, he, hp, APIResponse]
          · simp [UserPkg.CreateUser, createUser, hb, UserPkg_isEmailValid_eq, hv,
              UserPkg.FetchUser, fetchUser, hg, he, hp, APIResponse]
        · simp [UserPkg.CreateUser, createUser, hb, UserPkg_isEmailValid_eq, hv,
            UserPkg.FetchUser, fetchUser, hg, he, APIResponse]
      · simp [UserPkg.CreateUser, createUser, hb, UserPkg_isEmailValid_eq, hv,
          UserPkg.FetchUser, fetchUser, hg]
    · simp [UserPkg.CreateUser, createUser, hb, UserPkg_isEmailValid_eq, hv, APIResponse]

theorem update_refines (req : APIGatewayProxyRequest) (tableName : String) (s : List Item)
    (f : Faults) :
    (UserPkg.UpdateUser req tableName s f).2 = (updateUser req s f).2 ∧
    ((∃ u, (UserPkg.UpdateUser req tableName s f).1 = UserPkg.OpResult.ok u) ↔
      (updateUser req s f).1 = HandlerResult.response (APIResponse 201 ResponseBody.empty)) ∧
    ((UserPkg.UpdateUser req tableName s f).1 = UserPkg.OpResult.nilPanic ↔
      (updateUser req s f).1 = HandlerResult.nilPanic) := by
  rcases hb : req.Body with _ | u
  · simp [UserPkg.UpdateUser, updateUser, hb, APIResponse]
  · cases hg : f.getItemFails
    · by_cases he : (unmarshalMap ((storeGet s u.Email).getD [])).Email.length = 0
      · simp [UserPkg.UpdateUser, updateUser, hb, UserPkg.FetchUser, fetchUser, hg, he,
          APIResponse]
      · cases hp : f.putItemFails
        · simp [UserPkg.UpdateUser, updateUser, hb, UserPkg.FetchUser, fetchUser, hg, he, hp,
            APIResponse]
        · simp [UserPkg.UpdateUser, updateUser, hb, UserPkg.FetchUser, fetchUser, hg, he, hp,
            APIResponse]
    · simp [UserPkg.UpdateUser, updateUser, hb, UserPkg.FetchUser, fetchUser, hg]

theorem delete_refines (req : APIGatewayProxyRequest) (tableName : String) (s : List Item)
    (f : Faults) :
    (UserPkg.DeleteUser req tableName s f).2 = (deleteUser req s f).2 ∧
    ((UserPkg.DeleteUser req tableName s f).1 = none ↔
      (deleteUser req s f).1 =
        HandlerResult.response (APIResponse 200 ResponseBody.deleteBody)) := by
  cases hd : f.deleteItemFails
  · simp [UserPkg.DeleteUser, deleteUser, hd]
  · simp [UserPkg.DeleteUser, deleteUser, hd, APIResponse]

theorem fetch_refines (tableName : String) (s : List Item) (f : Faults) (e : String) :
    (UserPkg.FetchUser e tableName s f.getItemFails =
        Except.ok (unmarshalMap ((storeGet s e).getD [])) ∧
      fetchUser e s f.getItemFails = Except.ok (unmarshalMap ((storeGet s e).getD []))) ∨
    (UserPkg.FetchUser e tableName s f.getItemFails =
        Except.error UserPkg.ErrorFailedToFetchRecord ∧
      fetchUser e s f.getItemFails = Except.error ErrorFailedToFetchRecord) := by
  cases hg : f.getItemFails
  · exact Or.inl ⟨by simp [UserPkg.FetchUser], by simp [fetchUser]⟩
  · exact Or.inr ⟨by simp [UserPkg.FetchUser], by simp [fetchUser]⟩

/-- C10: the CRUD functions of pkg/user are behaviorally equivalent to the
main-file handlers: on every request, table and fault pattern, each package
function leaves the same table behind as its handler, succeeds exactly when
the handler takes its success path, crashes on the same nil dereference,
and FetchUser returns the same record as fetchUser or fails under the same
condition, the two sides differing only in error-message wording and
capitalization. -/
theorem C10_refinement (req : APIGatewayProxyRequest) (tableName : String) (s : List Item)
    (f : Faults) :
    ((UserPkg.CreateUser req tableName s f).2 = (createUser req s f).2 ∧
      ((∃ u, (UserPkg.CreateUser req tableName s f).1 = UserPkg.OpResult.ok u) ↔
        (createUser req s f).1 = HandlerResult.response (APIResponse 201 ResponseBody.empty)) ∧
      ((UserPkg.CreateUser req tableName s f).1 = UserPkg.OpResult.nilPanic ↔
        (createUser req s f).1 = HandlerResult.nilPanic)) ∧
    ((UserPkg.UpdateUser req tableName s f).2 = (updateUser req s f).2 ∧
      ((∃ u, (UserPkg.UpdateUser req tableName s f).1 = UserPkg.OpResult.ok u) ↔
        (updateUser req s f).1 = HandlerResult.response (APIResponse 201 ResponseBody.empty)) ∧
      ((UserPkg.UpdateUser req tableName s f).1 = UserPkg.OpResult.nilPanic ↔
        (updateUser req s f).1 = HandlerResult.nilPanic)) ∧
    ((UserPkg.DeleteUser req tableName s f).2 = (deleteUser req s f).2 ∧
      ((UserPkg.DeleteUser req tableName s f).1 = none ↔
        (deleteUser req s f).1 =
          HandlerResult.response (APIResponse 200 ResponseBody.deleteBody))) ∧
    (∀ e : String,
      (UserPkg.FetchUser e tableName s f.getItemFails =
          Except.ok (unmarshalMap ((storeGet s e).getD [])) ∧
        fetchUser e s f.getItemFails = Except.ok (unmarshalMap ((storeGet s e).getD []))) ∨
      (UserPkg.FetchUser e tableName s f.getItemFails =
          Except.error UserPkg.ErrorFailedToFetchRecord ∧
        fetchUser e s f.getItemFails = Except.error ErrorFailedToFetchRecord)) :=
  ⟨create_refines req tableName s f, update_refines req tableName s f,
   delete_refines req tableName s f, fetch_refines tableName s f⟩
